import Mathlib

/-!
Verification of the prompt-flattening and template-building core of the
Visual-Prompting repository.

The development embeds, as executable Lean definitions, the two pure
components of the repository:

* `visual_prompting/prompt/parser.py` — `reponse_to_string`, which flattens a
  populated `ImagePrompt` / `VideoPrompt` record into one prompt string;
* `visual_prompting/prompt/creation.py` — the system-prompt template builders
  `create_image_prompt_template` / `create_video_prompt_template` and their
  helpers (`get_enum_choices`, `extract_examples_from_description`,
  `get_comprehensive_field_description`), together with the field metadata
  they read from `visual_prompting/schema.py`.

Python runtime conventions are made explicit: `Optional[str]` fields become
`Option String`, truthiness of a string is the test `≠ ""`, `str.strip` is
`pyStrip` over the six ASCII whitespace characters Python strips, and the
enum-valued fields hold their string values (the models set
`use_enum_values = True`).
-/

namespace VisualPrompting

/-! ### Python string primitives -/

/-- The six characters Python's `str.strip` and the regex class `\s` treat as
whitespace (ASCII range). -/
def isPySpace (c : Char) : Bool :=
  c = ' ' || c = '\t' || c = '\n' || c = '\r' || c = '\x0b' || c = '\x0c'

/-- `str.strip()` on a character list: drop leading and trailing whitespace. -/
def pyStripL (l : List Char) : List Char :=
  ((l.dropWhile isPySpace).reverse.dropWhile isPySpace).reverse

/-- `str.strip()` on a `String`. -/
def pyStripS (s : String) : String :=
  (pyStripL s.toList).asString

/-! ### Prompt records (`visual_prompting/schema.py`)

Field order and optionality follow the Pydantic class declarations.  Because
both models set `use_enum_values = True`, enum-typed and `Literal`-typed
fields carry plain strings at runtime. -/

/-- `schema.ImagePrompt`: `subject` and `scene_description` are required
(`Field(...)`), every other field is `Optional` with default `None` except
`aspect_ratio` (default `"16:9"`) and `image_quality` (default `"high"`),
which still admit `None`. -/
structure ImagePrompt where
  subject : String
  scene_description : String
  photography_type : Option String
  lens_type : Option String
  focal_length : Option String
  lighting_type : Option String
  lighting_description : Option String
  color_palette : Option String
  shot_type : Option String
  composition_technique : Option String
  artistic_style : Option String
  mood_and_emotion : Option String
  aspect_ratio : Option String
  image_quality : Option String
  camera_settings : Option String
  negative_prompt : Option String
  style_reference : Option String
deriving DecidableEq

/-- `schema.VideoPrompt`: `subject`, `context`, `action` and `style` are
required, the rest are `Optional` (defaults: `aspect_ratio = "16:9"`,
`duration_preference = "medium"`, `motion_intensity = "moderate"`). -/
structure VideoPrompt where
  subject : String
  context : String
  action : String
  style : String
  camera_movement : Option String
  camera_description : Option String
  shot_type : Option String
  composition : Option String
  lighting : Option String
  ambiance : Option String
  aspect_ratio : Option String
  duration_preference : Option String
  motion_intensity : Option String
  negative_prompt : Option String
  reference_style : Option String
  transition_type : Option String
  emotional_tone : Option String
deriving DecidableEq

/-- The declared schema default of `ImagePrompt.image_quality`
(`schema.py` line 151: `Field("high", ...)`). -/
def image_quality_default : String := "high"

/-- The argument of `reponse_to_string`: `Union[ImagePrompt, VideoPrompt]`. -/
inductive Prompt where
  | image (p : ImagePrompt)
  | video (p : VideoPrompt)
deriving DecidableEq

/-! ### `reponse_to_string` (`visual_prompting/prompt/parser.py`) -/

/-- `if prompt.f: parts.append(g(prompt.f))` for an `Optional[str]` field:
a `None` or empty-string value contributes nothing (Python truthiness). -/
def optFrag (o : Option String) (g : String → String) : List String :=
  match o with
  | none => []
  | some s => if s ≠ "" then [g s] else []

/-- Same gate for a required (plain `str`) field. -/
def reqFrag (s : String) (g : String → String) : List String :=
  if s ≠ "" then [g s] else []

/-- `shot_type.replace("_", " ")`. -/
def underscoreToSpace (s : String) : String :=
  (s.toList.map (fun c => if c = '_' then ' ' else c)).asString

/-- Image branch of `reponse_to_string`, parts preceding the
`image_quality` fragment (parser.py lines 17–66). -/
def imagePartsBeforeQuality (p : ImagePrompt) : List String :=
  reqFrag p.subject id ++
  reqFrag p.scene_description id ++
  optFrag p.photography_type (fun s => s ++ " photography") ++
  optFrag p.artistic_style id ++
  (let camera_specs :=
    optFrag p.lens_type (fun s => s ++ " lens") ++
    optFrag p.focal_length id ++
    optFrag p.camera_settings id
   if camera_specs ≠ [] then [String.intercalate ", " camera_specs] else []) ++
  (match p.lighting_type with
   | some lt =>
     if lt ≠ "" then
       match p.lighting_description with
       | some ld => if ld ≠ "" then [lt ++ ", " ++ ld] else [lt ++ " lighting"]
       | none => [lt ++ " lighting"]
     else optFrag p.lighting_description id
   | none => optFrag p.lighting_description id) ++
  (let composition_parts :=
    optFrag p.shot_type underscoreToSpace ++
    optFrag p.composition_technique id
   if composition_parts ≠ [] then [String.intercalate ", " composition_parts] else []) ++
  optFrag p.color_palette id ++
  optFrag p.mood_and_emotion id

/-- `if prompt.image_quality and prompt.image_quality != "standard":
parts.append(f"{prompt.image_quality} quality")` (parser.py lines 69–70). -/
def imageQualityPart (p : ImagePrompt) : List String :=
  match p.image_quality with
  | some q => if q ≠ "" ∧ q ≠ "standard" then [q ++ " quality"] else []
  | none => []

/-- `if prompt.style_reference: parts.append(f"in the style of {...}")`. -/
def imageStylePart (p : ImagePrompt) : List String :=
  optFrag p.style_reference (fun s => "in the style of " ++ s)

/-- The `parts` list built by the `isinstance(prompt, ImagePrompt)` branch. -/
def imageParts (p : ImagePrompt) : List String :=
  imagePartsBeforeQuality p ++ imageQualityPart p ++ imageStylePart p

/-- The `parts` list built by the `isinstance(prompt, VideoPrompt)` branch
(parser.py lines 75–124). -/
def videoParts (p : VideoPrompt) : List String :=
  reqFrag p.subject id ++
  reqFrag p.action id ++
  reqFrag p.context id ++
  (let camera_parts :=
    (match p.camera_movement with
     | some cm => if cm ≠ "" ∧ cm ≠ "static" then [cm ++ " camera movement"] else []
     | none => []) ++
    optFrag p.camera_description id ++
    optFrag p.shot_type underscoreToSpace ++
    optFrag p.composition id
   if camera_parts ≠ [] then [String.intercalate ", " camera_parts] else []) ++
  (let lighting_parts := optFrag p.lighting id ++ optFrag p.ambiance id
   if lighting_parts ≠ [] then [String.intercalate ", " lighting_parts] else []) ++
  reqFrag p.style id ++
  optFrag p.emotional_tone (fun s => s ++ " tone") ++
  (match p.motion_intensity with
   | some mi => if mi ≠ "" ∧ mi ≠ "moderate" then [mi ++ " motion"] else []
   | none => []) ++
  (match p.duration_preference with
   | some dp => if dp ≠ "" ∧ dp ≠ "medium" then [dp ++ " duration"] else []
   | none => []) ++
  optFrag p.reference_style (fun s => "in the style of " ++ s)

/-- The `parts` list of either branch. -/
def partsOf : Prompt → List String
  | .image p => imageParts p
  | .video p => videoParts p

def negativePromptOf : Prompt → Option String
  | .image p => p.negative_prompt
  | .video p => p.negative_prompt

def aspectRatioOf : Prompt → Option String
  | .image p => p.aspect_ratio
  | .video p => p.aspect_ratio

/-- `", ".join(part.strip() for part in parts if part and part.strip())`:
the parts that survive the truthiness filters, already stripped. -/
def finalParts (parts : List String) : List String :=
  (parts.filter (fun s => s ≠ "" && pyStripS s ≠ "")).map pyStripS

/-- `optimized_prompt += f" --negative {prompt.negative_prompt}"` when the
field is truthy (parser.py lines 130–131). -/
def negSuffix (np : Option String) : String :=
  match np with
  | some s => if s ≠ "" then " --negative " ++ s else ""
  | none => ""

/-- `optimized_prompt += f" --ar {prompt.aspect_ratio}"` when the field is
truthy and differs from `"16:9"` (parser.py lines 134–136; the isinstance
split applies the identical test to both record types). -/
def arSuffix (ar : Option String) : String :=
  match ar with
  | some a => if a ≠ "" ∧ a ≠ "16:9" then " --ar " ++ a else ""
  | none => ""

/-- The joined base prompt before the trailing directives. -/
def basePrompt (p : Prompt) : String :=
  String.intercalate ", " (finalParts (partsOf p))

/-- `optimized_prompt` after the `--negative` step, before the `--ar` step. -/
def withoutAr (p : Prompt) : String :=
  basePrompt p ++ negSuffix (negativePromptOf p)

/-- `parser.reponse_to_string`. -/
def reponse_to_string (p : Prompt) : String :=
  withoutAr p ++ arSuffix (aspectRatioOf p)

/-- Splitting a string at every occurrence of the separator `", "` — the
components of the flattened prompt as joined by
`", ".join(...)` in parser.py line 127. -/
def splitCommaSpaceAux (acc : List Char) : List Char → List String
  | [] => [acc.reverse.asString]
  | ',' :: ' ' :: rest => acc.reverse.asString :: splitCommaSpaceAux [] rest
  | c :: rest => splitCommaSpaceAux (c :: acc) rest

/-- Components of a comma-space-joined string. -/
def splitCommaSpaceS (s : String) : List String :=
  splitCommaSpaceAux [] s.toList

/-! ### Text helpers used by `visual_prompting/prompt/creation.py` -/

/-- Python `str.lower()` (ASCII range suffices for the schema's names). -/
def pyLower (s : String) : String := (s.toList.map Char.toLower).asString

/-- Python `str.title()` on one character: uppercase when the previous
character is not a letter, lowercase otherwise. -/
def pyTitleAux : Bool → List Char → List Char
  | _, [] => []
  | prevCased, c :: cs =>
    (if prevCased then c.toLower else c.toUpper) :: pyTitleAux c.isAlpha cs

/-- Python `str.title()`. -/
def pyTitle (s : String) : String := (pyTitleAux false s.toList).asString

/-- One step of Python `str.replace(pat, "")`: match `pat` at the front. -/
def dropPat : List Char → List Char → Option (List Char)
  | [], l => some l
  | _ :: _, [] => none
  | p :: ps, c :: cs => if c = p then dropPat ps cs else none

/-- Python `str.replace(pat, "")` (left-to-right, non-overlapping), with the
list length as fuel; used with the non-empty pattern `"Type"`. -/
def removeAllPatAux (pat : List Char) : Nat → List Char → List Char
  | _, [] => []
  | 0, l => l
  | n + 1, c :: cs =>
    match dropPat pat (c :: cs) with
    | some rest => removeAllPatAux pat n rest
    | none => c :: removeAllPatAux pat n cs

/-- `enum_class.__name__.replace("Type", "")`. -/
def removeTypeSub (s : String) : String :=
  (removeAllPatAux "Type".toList s.toList.length s.toList).asString

/-- `str(value).replace('"', '\\"')` from `format_example_section`. -/
def escapeQuotes (s : String) : String :=
  (s.toList.foldr
    (fun c acc => if c = '"' then '\\' :: '"' :: acc else c :: acc) []).asString

/-! ### The regex `Examples?:\s*(.+?)(?:"|$)` with `IGNORECASE | DOTALL`
(`creation.extract_examples_from_description`)

The pattern is modelled by explicit scanning functions: `headerAt` matches
the literal `Examples?:` case-insensitively at one position, `lazyGroupSplit`
realises `\s*(.+?)(?:"|$)` — the lazy group runs up to (and the match
through) the first double quote after at least one group character, else to
the end of the string, where Python's `$` also matches just before a single
trailing newline — and `findMatch` scans for the leftmost position where the
whole pattern matches (`re.search`).  `removeMatchesAux` replaces every
non-overlapping match by the empty string (`re.sub`). -/

/-- Match a lowercase literal pattern case-insensitively at the front. -/
def matchLowerPat : List Char → List Char → Option (List Char)
  | [], s => some s
  | _ :: _, [] => none
  | p :: ps, c :: cs => if c.toLower = p then matchLowerPat ps cs else none

/-- Match `Examples?:` (IGNORECASE) at the front: the literal `example`,
optionally `s`, then `:`.  Returns the rest of the input. -/
def headerAt (s : List Char) : Option (List Char) :=
  match matchLowerPat ['e', 'x', 'a', 'm', 'p', 'l', 'e'] s with
  | none => none
  | some rest =>
    match rest with
    | [] => none
    | c :: cs =>
      if c = 's' ∨ c = 'S' then
        match cs with
        | ':' :: r => some r
        | _ => none
      else if c = ':' then some cs else none

/-- The lazy group once it holds at least its first character `c0`: it stops
at (and the match consumes) the first `"` among the following characters
`cs`, else runs to the end of the input — where `$` also matches just before
a trailing newline. -/
def lazyGroupTail (c0 : Char) (cs : List Char) : Option (List Char × List Char) :=
  match cs.dropWhile (fun c => c ≠ '"') with
  | '"' :: after => some (c0 :: cs.takeWhile (fun c => c ≠ '"'), after)
  | _ =>
    match cs.getLast? with
    | some '\n' => some (c0 :: cs.dropLast, ['\n'])
    | _ => some (c0 :: cs, [])

/-- `\s*(.+?)(?:"|$)` after the header: returns the group and the input
remaining after the whole match, or `none` when the tail cannot match. -/
def lazyGroupSplit (r : List Char) : Option (List Char × List Char) :=
  match r.dropWhile isPySpace with
  | [] =>
    -- `.+?` needs one character: `\s*` backtracks and yields its last one.
    match (r.takeWhile isPySpace).getLast? with
    | some w => some ([w], [])
    | none => none
  | c0 :: cs => lazyGroupTail c0 cs

/-- The whole pattern at one position. -/
def fullMatchAt (s : List Char) : Option (List Char × List Char) :=
  match headerAt s with
  | none => none
  | some afterHeader => lazyGroupSplit afterHeader

/-- `re.search`: the leftmost full match, as
(text before the match, group 1, text after the match). -/
def findMatch : List Char → Option (List Char × List Char × List Char)
  | [] => none
  | c :: cs =>
    match fullMatchAt (c :: cs) with
    | some (g, rest) => some ([], g, rest)
    | none =>
      match findMatch cs with
      | some (pre, g, rest) => some (c :: pre, g, rest)
      | none => none

/-- `re.sub(pattern, "", s)`: remove every non-overlapping match, fuelled by
the input length (every match consumes at least the 8-character header). -/
def removeMatchesAux : Nat → List Char → List Char
  | 0, l => l
  | n + 1, l =>
    match findMatch l with
    | none => l
    | some (pre, _, rest) => pre ++ removeMatchesAux n rest

/-- Scanner for `re.findall(r"'([^']+)'", text)`: state `none` is outside
any candidate match, state `some acc` is inside one with the (reversed)
group collected so far.  An immediately repeated quote makes the engine fail
at the first quote and retry at the second, which the empty-`acc` branch
realises. -/
def findQuotedAux : Option (List Char) → List Char → List String
  | none, [] => []
  | none, c :: cs =>
    if c = '\'' then findQuotedAux (some []) cs else findQuotedAux none cs
  | some _, [] => []
  | some acc, c :: cs =>
    if c = '\'' then
      if acc.isEmpty then findQuotedAux (some []) cs
      else acc.reverse.asString :: findQuotedAux none cs
    else findQuotedAux (some (c :: acc)) cs

/-- `re.findall(r"'([^']+)'", text)`: every non-overlapping occurrence of a
quote, one or more non-quote characters, and a closing quote. -/
def findQuoted (l : List Char) : List String := findQuotedAux none l

/-- `re.sub(r"[,\s]+$", "", s)`: drop the trailing run of commas and
whitespace. -/
def rstripCommaWs (l : List Char) : List Char :=
  (l.reverse.dropWhile (fun c => c = ',' || isPySpace c)).reverse

/-- `creation.extract_examples_from_description`. -/
def extract_examples_from_description (description : String) :
    String × List String :=
  match findMatch description.toList with
  | none => (description, [])
  | some (_, g, _) =>
    let examples := findQuoted g
    let cleanChars := removeMatchesAux description.toList.length description.toList
    ((rstripCommaWs (pyStripL cleanChars)).asString, examples)

/-- `creation.get_comprehensive_field_description`.  The enum-choices block
(two lines appended when the field's type wraps an enum) and the constraints
block are passed in by the caller; with the installed Pydantic V2, `FieldInfo`
exposes neither a `constraints` nor a `min_length`/`max_length` attribute, so
the template builders pass an empty constraints list. -/
def get_comprehensive_field_description (description : Option String)
    (choicesLines : List String) (constraints : List String) : String :=
  let descParts :=
    (match description with
     | some d =>
       if d ≠ "" then
         let ce := extract_examples_from_description d
         ce.1 :: (if ce.2.isEmpty then []
                  else "\n**Examples:**" :: ce.2.map (fun e => "  - " ++ e))
       else []
     | none => [])
    ++ choicesLines
    ++ (if constraints.isEmpty then []
        else ["\n**Constraints:** " ++ String.intercalate ", " constraints])
  String.intercalate "\n" descParts

/-! ### Enumerated choice sets (`visual_prompting/schema.py`)

`creation.get_enum_choices` re-reads the enum declaration with
`inspect.getsource` and takes, for each member, the text after `#` on the
line holding `= "{value}"`.  The embedding carries that data directly: each
member is paired with the comment found on its declaration line (`none` when
the line carries no comment).  A `Bool` argument models whether
`inspect.getsource` succeeds (the `try`/`except` in lines 17–38). -/

structure EnumInfo where
  name : String
  members : List (String × Option String)

/-- One rendered choice line of the successful-introspection branch:
the member's comment, or the fallback
`"Option for " + name.replace("Type", "").lower()` when its line has no
comment. -/
def enumChoiceLine (name : String) (m : String × Option String) : String :=
  "  • " ++ m.1 ++ ": " ++
    (match m.2 with
     | some c => c
     | none => "Option for " ++ pyLower (removeTypeSub name))

/-- `creation.get_enum_choices`.  When source inspection raises, every
member gets the generic line `"  • {value}: Option for {name.lower()}"`. -/
def get_enum_choices (sourceAvailable : Bool) (e : EnumInfo) : String :=
  if sourceAvailable then
    String.intercalate "\n" (e.members.map (enumChoiceLine e.name))
  else
    String.intercalate "\n"
      (e.members.map (fun m => "  • " ++ m.1 ++ ": Option for " ++ pyLower e.name))

/-- `schema.AspectRatio`. -/
def aspectRatioEnum : EnumInfo :=
  ⟨"AspectRatio",
   [("1:1", some "Perfect for social media, profile pictures, product shots"),
    ("16:9", some "Landscape, ideal for TVs, monitors, scenic landscapes"),
    ("9:16", some "Portrait, ideal for mobile, social media, tall objects"),
    ("4:3", some "Traditional photography ratio"),
    ("21:9", some "Cinematic ultrawide format"),
    ("3:2", some "Golden ratio, natural photography")]⟩

/-- `schema.ShotType`. -/
def shotTypeEnum : EnumInfo :=
  ⟨"ShotType",
   [("extreme_wide_shot", some "Shows entire environment, subjects are small"),
    ("wide_shot", some "Shows full subject and surroundings"),
    ("medium_wide_shot", some "Shows subject from knees up"),
    ("medium_shot", some "Shows subject from waist up"),
    ("medium_close_up", some "Shows subject from chest up"),
    ("close_up", some "Shows subject's face and shoulders"),
    ("extreme_close_up", some "Shows specific details, eyes, hands"),
    ("bird_eye_view", some "High overhead perspective"),
    ("low_angle", some "Camera below subject, looking up"),
    ("high_angle", some "Camera above subject, looking down"),
    ("eye_level", some "Camera at subject's eye level")]⟩

/-- `schema.CameraMovement`. -/
def cameraMovementEnum : EnumInfo :=
  ⟨"CameraMovement",
   [("static", some "Camera remains stationary"),
    ("pan", some "Horizontal camera rotation"),
    ("tilt", some "Vertical camera rotation"),
    ("zoom_in", some "Lens zooms closer to subject"),
    ("zoom_out", some "Lens zooms away from subject"),
    ("dolly", some "Camera moves physically closer/farther"),
    ("tracking", some "Camera follows subject movement"),
    ("handheld", some "Natural camera shake, documentary style"),
    ("drone", some "Aerial perspective with smooth movement"),
    ("crane", some "High sweeping movements, cinematic")]⟩

/-- `schema.PhotographyType`. -/
def photographyTypeEnum : EnumInfo :=
  ⟨"PhotographyType",
   [("portrait", some "People, characters, headshots, personality"),
    ("landscape", some "Natural scenery, wide vistas, outdoors"),
    ("macro", some "Close-up details, small subjects, textures"),
    ("street", some "Urban, candid, documentary style"),
    ("product", some "Commercial, clean backgrounds, advertising"),
    ("architectural", some "Buildings, structures, interiors, design"),
    ("wildlife", some "Animals in natural habitats, nature"),
    ("food", some "Culinary, still life, restaurant style"),
    ("fashion", some "Clothing, style, modeling, editorial"),
    ("abstract", some "Artistic, conceptual, non-representational"),
    ("studio", some "Controlled lighting, professional setup"),
    ("documentary", some "Photojournalism, real-life events, storytelling")]⟩

/-- `schema.LensType`. -/
def lensTypeEnum : EnumInfo :=
  ⟨"LensType",
   [("wide_angle", some "10-24mm, landscapes, architecture, dramatic perspective"),
    ("standard", some "35-50mm, natural perspective, everyday photography"),
    ("portrait", some "85-135mm, portraits, shallow DOF, compression"),
    ("telephoto", some "100-400mm, sports, wildlife, distant subjects"),
    ("macro", some "60-105mm, close-up details, 1:1 reproduction"),
    ("fisheye", some "Ultra-wide, distorted perspective, creative effects")]⟩

/-- `schema.LightingType`. -/
def lightingTypeEnum : EnumInfo :=
  ⟨"LightingType",
   [("natural", some "Sunlight, ambient lighting, outdoors"),
    ("golden_hour", some "Warm, soft sunset/sunrise light"),
    ("blue_hour", some "Cool twilight lighting, magical atmosphere"),
    ("studio", some "Controlled artificial lighting setup"),
    ("soft_box", some "Diffused, even lighting, minimal shadows"),
    ("hard_light", some "Sharp shadows, dramatic contrast, directional"),
    ("backlighting", some "Light behind subject, rim lighting, silhouettes"),
    ("side_lighting", some "Light from side, dramatic shadows, depth"),
    ("ring_light", some "Even, shadowless lighting, beauty photography"),
    ("candlelight", some "Warm, intimate atmosphere, low light"),
    ("neon", some "Colorful artificial lighting, urban night")]⟩

/-! ### Field descriptors and the template builders
(`visual_prompting/prompt/creation.py` lines 193–507)

Both builders iterate `model_fields` in declaration order, decide required
vs. optional via Pydantic V2's `FieldInfo.is_required()`, render one entry
per field, and splice the two entry lists into a fixed surrounding text.
The field metadata below is transcribed from `schema.py`: declaration
order, requiredness (exactly the fields declared with `Field(...)`),
description text, the enum wrapped by the field's `Optional` type (listed
via `get_enum_choices`), and the declared length bounds. -/

structure FieldSpec where
  name : String
  required : Bool
  description : String
  enumChoices : Option EnumInfo
  min_length : Option Nat
  max_length : Option Nat

/-- The two `desc_parts` entries appended for an enum-wrapping field type
(creation.py lines 89–97). -/
def choicesLinesOf (f : FieldSpec) : List String :=
  match f.enumChoices with
  | some e => ["\n**Available choices:**", get_enum_choices true e]
  | none => []

/-- The comprehensive description of one field as the builders compute it.
The constraints list is empty: Pydantic V2's `FieldInfo` has neither the
`constraints` attribute nor `min_length`/`max_length` attributes that
creation.py lines 100–114 probe, so no constraints block is ever emitted. -/
def descOf (f : FieldSpec) : String :=
  get_comprehensive_field_description (some f.description) (choicesLinesOf f) []

/-- One `field_entry` block (creation.py lines 224–240; the video builder
repeats the identical format in lines 377–394). -/
def fieldEntry (f : FieldSpec) : String :=
  "### " ++ pyTitle (underscoreToSpace f.name) ++ "\n**" ++
    (if f.required then "Required" else "Optional") ++ " Field**\n\n" ++
    descOf f ++ "\n\n---\n"

/-- The loop that appends each field's entry to `required_fields` or
`optional_fields` in declaration order (creation.py lines 204–240). -/
def partitionEntries (fs : List FieldSpec) : List String × List String :=
  fs.foldl
    (fun acc f =>
      if f.required then (acc.1 ++ [fieldEntry f], acc.2)
      else (acc.1, acc.2 ++ [fieldEntry f]))
    ([], [])

/-- `required_section` (creation.py lines 247–254): header plus the joined
entries, or the all-optional fallback text. -/
def requiredSectionText (header fallback : String) (entries : List String) : String :=
  if entries.isEmpty then fallback else header ++ String.intercalate "\n" entries

/-- `creation.format_example_section`: the schema's example mapping rendered
as an indented pseudo-JSON block.  (The f-string writes four braces, so the
output shows doubled braces.) -/
def format_example_section (ex : List (String × String)) : String :=
  if ex.isEmpty then ""
  else
    "\n\n## Working Example\nHere's a complete example showing professional-quality field completion:\n\n```json\n\x7b\x7b\n"
      ++ String.intercalate ",\n"
          (ex.map (fun kv => "  \"" ++ kv.1 ++ "\": \"" ++ escapeQuotes kv.2 ++ "\""))
      ++ "\n\x7d\x7d\n```\n\nUse this as a reference for the level of detail and professional terminology expected."

/-- The shared shape of `create_image_prompt_template` and
`create_video_prompt_template`: preamble, required section, optional-fields
header, joined optional entries, and the fixed tail (guidance, guidelines,
example, response requirements). -/
def build_template (preamble reqHeader reqFallback optHeader tail : String)
    (fs : List FieldSpec) : String :=
  let pe := partitionEntries fs
  preamble ++ requiredSectionText reqHeader reqFallback pe.1 ++ optHeader
    ++ String.intercalate "\n" pe.2 ++ tail

/-! #### Schema field metadata -/

/-- `ImagePrompt.model_fields` in declaration order. -/
def imageFields : List FieldSpec :=
  [⟨"subject", true,
    "The main subject, object, person, or scene that serves as the focal point. Be specific and descriptive with unique characteristics. Examples: 'a professional woman in a navy blazer with confident expression', 'a vintage red bicycle leaning against a weathered brick wall', 'a golden retriever with floppy ears sitting in autumn leaves'",
    none, some 5, some 300⟩,
   ⟨"scene_description", true,
    "Detailed description of the setting, environment, and background context. Include location, time of day, weather, atmosphere, and surrounding elements. Examples: 'in a modern minimalist office with floor-to-ceiling windows', 'on a misty mountain trail during sunrise', 'in a bustling Tokyo street with neon signs reflecting on wet pavement'",
    none, some 10, some 400⟩,
   ⟨"photography_type", false,
    "Type of photography style that determines overall approach and technique. Examples: 'portrait' for people and characters, 'landscape' for scenery, 'macro' for close details, 'street' for urban candid shots",
    some photographyTypeEnum, none, none⟩,
   ⟨"lens_type", false,
    "Camera lens type that affects perspective, depth of field, and framing. Examples: 'wide_angle' for dramatic landscapes, 'portrait' for shallow DOF, 'telephoto' for distant subjects, 'macro' for extreme close-ups",
    some lensTypeEnum, none, none⟩,
   ⟨"focal_length", false,
    "Specific focal length measurement for precise lens control. Examples: '35mm' for street photography, '85mm' for portraits, '200mm' for wildlife, '14mm' for ultra-wide architecture",
    none, none, some 20⟩,
   ⟨"lighting_type", false,
    "Primary lighting setup and quality. Examples: 'golden_hour' for warm sunset light, 'studio' for controlled lighting, 'natural' for outdoor ambient, 'backlighting' for dramatic silhouettes",
    some lightingTypeEnum, none, none⟩,
   ⟨"lighting_description", false,
    "Detailed lighting characteristics beyond the basic type. Examples: 'dramatic side lighting creating strong shadows on the left side', 'soft diffused light from large window creating gentle highlights', 'warm candlelight casting flickering shadows with intimate atmosphere'",
    none, none, some 250⟩,
   ⟨"color_palette", false,
    "Color scheme and tonal characteristics of the image. Examples: 'warm earth tones with golden and brown hues', 'monochromatic blue palette with various shades', 'vibrant saturated colors with neon accents'",
    none, none, some 200⟩,
   ⟨"shot_type", false,
    "Shot framing and camera angle. Examples: 'close_up' for facial details, 'wide_shot' for full environment, 'low_angle' for powerful subjects, 'bird_eye' for overhead perspective",
    some shotTypeEnum, none, none⟩,
   ⟨"composition_technique", false,
    "Artistic composition rules and framing techniques. Examples: 'rule of thirds with subject positioned on left intersection', 'symmetrical composition with perfect center balance', 'leading lines drawing viewer's eye from foreground to background'",
    none, none, some 250⟩,
   ⟨"artistic_style", false,
    "Artistic movement, aesthetic, or visual style inspiration. Examples: 'Renaissance painting style with dramatic chiaroscuro', 'minimalist modern aesthetic with clean lines', 'cyberpunk aesthetic with neon colors and urban decay'",
    none, none, some 200⟩,
   ⟨"mood_and_emotion", false,
    "Emotional tone and psychological feeling the image should convey. Examples: 'serene and peaceful with calming atmosphere', 'dramatic and intense with tension and energy', 'nostalgic and melancholic with wistful sadness'",
    none, none, some 150⟩,
   ⟨"aspect_ratio", false,
    "Image proportions for different use cases. Examples: '1:1' for social media posts, '16:9' for displays, '9:16' for mobile content, '3:2' for natural photography",
    some aspectRatioEnum, none, none⟩,
   ⟨"image_quality", false,
    "Image resolution and detail level. Examples: 'high' for detailed work, 'ultra' for maximum resolution, 'artistic' for creative interpretation with stylization",
    none, none, none⟩,
   ⟨"camera_settings", false,
    "Specific camera technical settings for photorealistic results. Examples: 'f/1.4 shallow depth of field', 'f/8 sharp focus throughout', '1/500s fast shutter speed freezing motion', 'ISO 100 minimal noise'",
    none, none, some 200⟩,
   ⟨"negative_prompt", false,
    "Visual elements to avoid or exclude from the image. Examples: 'blurry details, overexposed highlights, distorted proportions', 'artificial lighting, cluttered background, poor composition'",
    none, none, some 200⟩,
   ⟨"style_reference", false,
    "Reference to specific photographers, artists, films, or visual works. Examples: 'Annie Leibovitz portrait style', 'Ansel Adams landscape photography', 'Blade Runner 2049 cinematography', 'Studio Ghibli animation aesthetic'",
    none, none, some 150⟩]

/-- `VideoPrompt.model_fields` in declaration order. -/
def videoFields : List FieldSpec :=
  [⟨"subject", true,
    "The primary object, person, animal, or scenery that serves as the main focus. Be specific and descriptive with unique characteristics. Examples: 'a golden retriever with floppy ears', 'a majestic oak tree with autumn leaves', 'a woman in a red dress'",
    none, some 3, some 200⟩,
   ⟨"context", true,
    "The background, setting, or environment where the action takes place. Include spatial relationships and environmental details. Examples: 'in a misty forest clearing at dawn', 'on a busy city street during rush hour', 'inside a cozy library with warm lighting'",
    none, some 5, some 300⟩,
   ⟨"action", true,
    "Specific actions, movements, or behaviors the subject performs. Use active, concrete verbs rather than abstract concepts. Examples: 'walks slowly while looking over shoulder', 'jumps with excitement, arms raised high', 'carefully paints brushstrokes on canvas'",
    none, some 5, some 250⟩,
   ⟨"style", true,
    "Visual and aesthetic style for the video. Examples: 'film noir with high contrast shadows', 'Studio Ghibli animated style', 'cinematic horror film atmosphere', '1970s retro aesthetic with warm film grain'",
    none, some 5, some 200⟩,
   ⟨"camera_movement", false,
    "Type of camera movement during the shot. Examples: 'static' for stationary camera, 'tracking' to follow subject, 'drone' for aerial perspectives, 'handheld' for documentary style",
    some cameraMovementEnum, none, none⟩,
   ⟨"camera_description", false,
    "Detailed description of camera behavior and movement. Examples: 'smooth dolly shot moving from left to right', 'handheld camera with gentle natural movement', 'static wide shot that slowly zooms into character's face'",
    none, none, some 200⟩,
   ⟨"shot_type", false,
    "Shot composition and framing type. Examples: 'wide_shot' for full environment, 'close_up' for facial details, 'low_angle' for powerful subjects, 'bird_eye' for overhead view",
    some shotTypeEnum, none, none⟩,
   ⟨"composition", false,
    "Advanced shot framing and visual composition details. Examples: 'rule of thirds with subject on left third', 'symmetrical composition with centered subject', 'shallow depth of field with blurred background'",
    none, none, some 200⟩,
   ⟨"lighting", false,
    "Lighting setup, quality, and characteristics. Examples: 'soft golden hour lighting', 'dramatic high contrast shadows', 'neon lighting with colored reflections', 'warm candlelight ambiance'",
    none, none, some 200⟩,
   ⟨"ambiance", false,
    "Overall mood, atmosphere, and environmental feeling. Examples: 'warm sunset tones with orange and pink hues', 'cool blue moonlight with misty atmosphere', 'bright cheerful spring morning with vibrant colors'",
    none, none, some 200⟩,
   ⟨"aspect_ratio", false,
    "Video aspect ratio for different platforms. Examples: '16:9' for landscape/TV, '9:16' for mobile/social media, '1:1' for square social posts, '21:9' for cinematic ultrawide",
    some aspectRatioEnum, none, none⟩,
   ⟨"duration_preference", false,
    "Preferred video length based on content complexity. Examples: 'short' for quick actions (2-5s), 'medium' for standard clips (5-10s), 'long' for complex sequences (10+ seconds)",
    none, none, none⟩,
   ⟨"motion_intensity", false,
    "Overall amount of movement and action in the video. Examples: 'subtle' for gentle movement, 'dynamic' for energetic action, 'intense' for high-energy sequences with rapid changes",
    none, none, none⟩,
   ⟨"negative_prompt", false,
    "Elements to avoid or exclude from the video. Examples: 'blurry motion, camera shake, distorted faces', 'poor lighting, choppy movement, unnatural physics'",
    none, none, some 200⟩,
   ⟨"reference_style", false,
    "Reference to specific films, directors, artists, or visual styles. Examples: 'Blade Runner 2049 cinematography', 'Miyazaki animation style', 'Kubrick symmetrical framing', 'David Fincher color grading'",
    none, none, some 150⟩,
   ⟨"transition_type", false,
    "How the video should begin, progress, or end if part of a sequence. Examples: 'fade in from black', 'seamless loop', 'natural ending with stillness', 'dramatic reveal at climax'",
    none, none, some 100⟩,
   ⟨"emotional_tone", false,
    "The emotional feeling or mood the video should convey. Examples: 'peaceful and serene', 'tense and suspenseful', 'joyful and energetic', 'melancholic and contemplative'",
    none, none, some 100⟩]

/-! #### Static template text (`creation.py` lines 193–344 and 347–507) -/

/-- Role/mission preamble of the system prompt (`kind` is `"image"` or
`"video"`, `structName` the Pydantic class name interpolated by the
f-string). -/
def missionPreamble (kind structName : String) : String :=
  "You are an expert " ++ kind ++ " generation prompt engineer specializing in AI-powered content creation. Transform user requests into professional-quality prompts following industry standards and best practices.\n\n## Your Mission\nAnalyze user input and create a comprehensive " ++ structName ++ " structure. Apply professional-level detail, technical accuracy, and creative enhancement based on modern AI generation capabilities.\n\n"

/-- Header of the `required_section` (`kind` again `"image"`/`"video"`). -/
def requiredHeaderText (kind : String) : String :=
  "## Required Fields\nThese fields are essential for every " ++ kind ++ " generation prompt:\n\n"

/-- Fallback `required_section` when no field is required. -/
def requiredFallbackText : String :=
  "## Required Fields\nAll fields are optional - use the most relevant ones for your specific request.\n"

/-- Connector between the required section and the optional entries. -/
def optionalHeaderText : String :=
  "\n\n## Optional Enhancement Fields\nUse these fields to elevate prompt quality and match user intent:\n\n"

/-- `technical_guidance` of the image builder (leading newline included). -/
def imageTechnicalGuidance : String :=
  "\n## Professional Image Generation Best Practices\n\n### Core Structure (Subject + Context + Style)\n- **Subject**: The main object, person, animal, or scenery (be specific and descriptive)\n- **Context**: Background and environment where subject is placed\n- **Style**: General (painting, photograph) or specific (pastel painting, film noir)\n\n### Photography Quality Modifiers\n- **General**: high-quality, beautiful, stylized, professional, detailed\n- **Technical**: 4K, HDR, studio photo, sharp focus, bokeh, portrait mode\n- **Artistic**: by a professional photographer, award-winning photography\n\n### Photography Technical Specifications\n**For Portraits**: 24-35mm lens, shallow depth of field, prime/zoom lens, film noir style\n**For Objects/Still Life**: 60-105mm macro lens, high detail, precise focusing, controlled lighting\n**For Motion**: 100-400mm telephoto, fast shutter speed, action tracking\n**For Landscapes**: 10-24mm wide-angle, long exposure, sharp focus throughout\n\n### Lighting Modifiers\n- **Natural**: sunlight, golden hour, blue hour, ambient lighting\n- **Artificial**: studio lighting, soft box, hard light, ring light\n- **Creative**: backlighting, side lighting, candlelight, neon lighting\n\n### Camera Settings for Photorealism\nInclude specific technical settings like:\n- f/1.4 (shallow depth of field), f/8 (sharp focus throughout)\n- 1/500s (fast shutter), ISO 100 (minimal noise)\n- 85mm portrait lens, 35mm street photography"

/-- `negative_prompt_guidance` of the image builder. -/
def imageNegativeGuidance : String :=
  "\n### Negative Prompts\n✅ **Do**: Describe what you don't want plainly (e.g., \"blurry, overexposed, distorted\")\n❌ **Don't**: Use instructive language (\"no\", \"don't show\", \"avoid\")"

/-- `technical_guidance` of the video builder.  The line
`2. **Context**: ...` carries two trailing spaces in the source. -/
def videoTechnicalGuidance : String :=
  "\n## Professional Video Generation Best Practices\n\n### Essential Elements for Video Generation\n1. **Subject**: Object, person, animal, or scenery you want\n2. **Context**: Background/environment where subject is placed  \n3. **Action**: What the subject is doing (walking, running, turning head)\n4. **Style**: Film style (horror film, film noir) or animation (cartoon style)\n5. **Camera Motion**: Aerial view, eye-level, tracking shot, dolly movement\n6. **Composition**: Wide shot, close-up, extreme close-up framing\n7. **Ambiance**: Color/lighting (blue tones, warm tones, golden hour)\n\n### Video Generation Principles\n**Power of Simplicity**: Often less is more - let AI fill in contextually appropriate details\n**Camera Movements**: static, pan, tilt, zoom in/out, dolly, tracking, handheld, drone, crane\n**Quality**: Smooth motion, cinematic look, specific film references\n\n### Camera Specifications for Video\n- **POV shots**: First-person perspective, immersive experience\n- **Aerial views**: Drone shots, bird's eye perspective, tracking drone view\n- **Tracking shots**: Follow subject movement, smooth camera motion\n- **Composition**: Wide shot (full environment), close-up (facial details), extreme close-up (specific details)\n\n### Ambiance & Color Palettes\n- **Warm tones**: muted orange warm tones, golden hour, sunrise/sunset\n- **Cool tones**: pastel blue and pink tones, cool blue tones, night atmosphere\n- **Lighting**: natural light, dim ambient lighting, dramatic lighting, soft lighting\n\n### Audio Considerations (if supported)\nClearly specify audio requirements in separate sentences:\n- **Sound effects**: \"The audio features water splashing in the background\"\n- **Music**: \"Add soft music in the background\"\n- **Speech**: Character dialogue with clear speaker identification"

/-- `negative_prompt_guidance` of the video builder. -/
def videoNegativeGuidance : String :=
  "\n### Negative Prompts\n✅ **Do**: Describe unwanted elements plainly (e.g., \"urban background, dark atmosphere\")\n❌ **Don't**: Use instructive language (\"no walls\", \"don't show buildings\")\n\n### Multiple Characters (Image-to-Video)\nWhen multiple subjects present, use distinguishing details:\n- \"The man in the red hat\" + \"The woman in the blue dress\"\n- Ensure actions align with each character in the input image"

/-- The `## Professional Guidelines` body, identical for both builders apart
from `"image"`/`"video"` in item 2. -/
def professionalGuidelines (medium : String) : String :=
  "### 1. Descriptive Precision (Industry Standard)\n- Use detailed adjectives and adverbs for clear AI understanding\n- Include background context when necessary\n- Reference specific artists/styles for particular aesthetics\n- Be specific rather than generic (\"confident business executive\" vs \"nice person\")\n\n### 2. Technical Excellence\n- Apply industry-standard " ++ medium ++ " production techniques\n- Use proper terminology for camera, lighting, and composition\n- Consider modern AI generation capabilities and limitations\n- Include relevant technical specifications\n\n### 3. Creative Enhancement\n- Expand user input with professional artistic details\n- Add atmospheric and stylistic elements following industry guidelines\n- Balance creative vision with technical feasibility\n- Consider mood, emotion, and visual impact\n\n### 4. Structured Approach\n- Ensure all fields work harmoniously together\n- Maintain consistency in style and tone across fields\n- Follow the core structure: Subject + Context + Style + Technical specs\n- Optimize for current AI generation capabilities\n\n### 5. Quality Optimization\n- Consider intended use case and audience\n- Include appropriate quality modifiers\n- Apply suitable aspect ratios and technical settings\n- Balance detail with clarity (avoid over-complexity)"

/-- Closing `## Response Requirements` block. -/
def responseRequirements (structName : String) : String :=
  "\n\n## Response Requirements\nReturn a valid JSON object matching the " ++ structName ++ " structure exactly. Include all required fields and relevant optional fields based on user request, creative vision, and industry best practices."

/-- `Config.json_schema_extra["example"]` of `ImagePrompt`
(insertion order). -/
def imageExample : List (String × String) :=
  [("subject", "a professional woman in her 30s wearing a navy blazer with confident expression"),
   ("scene_description", "in a modern minimalist office with floor-to-ceiling windows overlooking a city skyline during golden hour"),
   ("photography_type", "portrait"),
   ("lens_type", "portrait"),
   ("focal_length", "85mm"),
   ("lighting_type", "golden_hour"),
   ("lighting_description", "warm golden light streaming through windows creating soft highlights on her face"),
   ("color_palette", "warm golden tones with deep blue accents from the cityscape"),
   ("shot_type", "medium_close_up"),
   ("composition_technique", "rule of thirds with subject positioned on right intersection"),
   ("artistic_style", "contemporary corporate portrait with cinematic quality"),
   ("mood_and_emotion", "confident and professional with approachable warmth"),
   ("aspect_ratio", "3:2"),
   ("image_quality", "high"),
   ("camera_settings", "f/2.8 shallow depth of field with sharp focus on eyes")]

/-- `Config.json_schema_extra["example"]` of `VideoPrompt`
(insertion order). -/
def videoExample : List (String × String) :=
  [("subject", "a golden retriever with a red collar"),
   ("context", "in a sunlit meadow filled with wildflowers during golden hour"),
   ("action", "runs joyfully toward the camera with tongue hanging out"),
   ("style", "cinematic documentary style with warm color grading"),
   ("camera_movement", "tracking"),
   ("camera_description", "smooth tracking shot following the dog's movement"),
   ("shot_type", "medium_wide_shot"),
   ("lighting", "warm golden hour sunlight with soft shadows"),
   ("ambiance", "peaceful spring afternoon with gentle warm tones"),
   ("aspect_ratio", "16:9"),
   ("motion_intensity", "dynamic"),
   ("emotional_tone", "joyful and energetic")]

/-- Fixed tail of the image template: technical guidance, negative-prompt
guidance, professional guidelines, worked example and closing instruction. -/
def imageTemplateTail : String :=
  "\n\n" ++ imageTechnicalGuidance ++ "\n\n" ++ imageNegativeGuidance
    ++ "\n\n## Professional Guidelines\n\n" ++ professionalGuidelines "image"
    ++ format_example_section imageExample ++ responseRequirements "ImagePrompt"

/-- Fixed tail of the video template. -/
def videoTemplateTail : String :=
  "\n\n" ++ videoTechnicalGuidance ++ "\n\n" ++ videoNegativeGuidance
    ++ "\n\n## Professional Guidelines\n\n" ++ professionalGuidelines "video"
    ++ format_example_section videoExample ++ responseRequirements "VideoPrompt"

/-- `creation.create_image_prompt_template`. -/
def create_image_prompt_template : String :=
  build_template (missionPreamble "image" "ImagePrompt")
    (requiredHeaderText "image") requiredFallbackText optionalHeaderText
    imageTemplateTail imageFields

/-- `creation.create_video_prompt_template`. -/
def create_video_prompt_template : String :=
  build_template (missionPreamble "video" "VideoPrompt")
    (requiredHeaderText "video") requiredFallbackText optionalHeaderText
    videoTemplateTail videoFields

/-! ### Notions used to state the example-extraction property -/

/-- No position strictly inside `pre` starts a full match of the examples
pattern when `suffix` follows (so the leftmost match of `pre ++ suffix` can
only start inside `suffix`). -/
def noMatchIn : List Char → List Char → Bool
  | [], _ => true
  | c :: rest, suffix =>
    (fullMatchAt ((c :: rest) ++ suffix)).isNone && noMatchIn rest suffix

/-- What `extract_examples_from_description` leaves of the text before the
clause: `strip()` then the trailing `[,\s]+` removed. -/
def cleanupPre (s : String) : String :=
  (rstripCommaWs (pyStripL s.toList)).asString

/-- A two-item examples list as it appears in a field description:
`'a', 'b'`. -/
def exItemsText (a b : String) : String :=
  "'" ++ a ++ "', '" ++ b ++ "'"

-- ===========================================================================
-- Theorems
-- ===========================================================================

/-- A nonempty string has positive length. -/
theorem length_pos_of_ne_empty {s : String} (h : s ≠ "") : 0 < s.length := by
  cases s with
  | mk data =>
    cases data with
    | nil => exact absurd rfl h
    | cons a l => simp [String.length]

/-- C1: flattening an `ImagePrompt` whose subject is `"a red bicycle"`, whose
scene description is `"on a cobblestone street"` and whose other fields are
all null yields exactly `"a red bicycle, on a cobblestone street"`. -/
theorem c1_image_minimal_flatten :
    reponse_to_string (.image ⟨"a red bicycle", "on a cobblestone street",
        none, none, none, none, none, none, none, none, none, none, none, none,
        none, none, none⟩)
      = "a red bicycle, on a cobblestone street" := by decide

/-- C2: flattening a `VideoPrompt` with subject `"a dog"`, action `"runs"`,
context `"in a park"`, style `"documentary"`, the default motion intensity
`"moderate"` and default duration preference `"medium"`, all other fields
null, yields exactly `"a dog, runs, in a park, documentary"`: the two
default-valued fields contribute no fragments. -/
theorem c2_video_default_motion_duration :
    reponse_to_string (.video ⟨"a dog", "in a park", "runs", "documentary",
        none, none, none, none, none, none, none, some "medium", some "moderate",
        none, none, none, none⟩)
      = "a dog, runs, in a park, documentary" := by decide

/-- C3: for every record, `reponse_to_string` appends the suffix
`" --ar Y"` (with `Y` the record's aspect-ratio value) exactly when the
aspect-ratio field is set, non-empty and different from `"16:9"`; otherwise
the output is the flattened prompt without any aspect-ratio directive. -/
theorem c3_ar_suffix_iff (p : Prompt) :
    (∀ a, aspectRatioOf p = some a → a ≠ "" → a ≠ "16:9" →
        reponse_to_string p = withoutAr p ++ (" --ar " ++ a)) ∧
    ((aspectRatioOf p = none ∨ aspectRatioOf p = some "" ∨
        aspectRatioOf p = some "16:9") →
      reponse_to_string p = withoutAr p) := by
  constructor
  · intro a ha h1 h2
    simp [reponse_to_string, arSuffix, ha, h1, h2]
  · rintro (h | h | h) <;> simp [reponse_to_string, arSuffix, h]

/-- Witness for C3 at concrete inputs: an image record with aspect ratio
`"1:1"` receives the directive, one with the default `"16:9"` does not. -/
theorem c3_ar_suffix_iff_witness :
    reponse_to_string (.image ⟨"a red bicycle", "on a cobblestone street",
        none, none, none, none, none, none, none, none, none, none, some "1:1",
        none, none, none, none⟩)
      = "a red bicycle, on a cobblestone street --ar 1:1" ∧
    reponse_to_string (.image ⟨"a red bicycle", "on a cobblestone street",
        none, none, none, none, none, none, none, none, none, none, some "16:9",
        none, none, none, none⟩)
      = "a red bicycle, on a cobblestone street" := by
  constructor
  · have h := (c3_ar_suffix_iff (.image ⟨"a red bicycle", "on a cobblestone street",
        none, none, none, none, none, none, none, none, none, none, some "1:1",
        none, none, none, none⟩)).1 "1:1" rfl (by decide) (by decide)
    rw [h]; decide
  · have h := (c3_ar_suffix_iff (.image ⟨"a red bicycle", "on a cobblestone street",
        none, none, none, none, none, none, none, none, none, none, some "16:9",
        none, none, none, none⟩)).2 (Or.inr (Or.inr rfl))
    rw [h]; decide

/-- C4: the image branch contributes the fragment `"{image_quality} quality"`
exactly when `image_quality` is set, non-empty and not the default
`"standard"`; when the field is `"standard"` or null, the parts list contains
no quality fragment at all. -/
theorem c4_image_quality_fragment (p : ImagePrompt) :
    (∀ q, p.image_quality = some q → q ≠ "" → q ≠ "standard" →
        imageQualityPart p = [q ++ " quality"] ∧ (q ++ " quality") ∈ imageParts p) ∧
    ((p.image_quality = none ∨ p.image_quality = some "standard") →
      imageParts p = imagePartsBeforeQuality p ++ imageStylePart p) := by
  constructor
  · intro q hq h1 h2
    have hpart : imageQualityPart p = [q ++ " quality"] := by
      simp [imageQualityPart, hq, h1, h2]
    refine ⟨hpart, ?_⟩
    have : (q ++ " quality") ∈ imageQualityPart p := by simp [hpart]
    exact List.mem_append_left _ (List.mem_append_right _ this)
  · rintro (h | h) <;> simp [imageParts, imageQualityPart, h]

/-- Witness for C4 at concrete inputs: quality `"ultra"` produces the
fragment, quality `"standard"` leaves the parts list without one. -/
theorem c4_image_quality_fragment_witness :
    imageQualityPart ⟨"a red bicycle", "on a cobblestone street",
        none, none, none, none, none, none, none, none, none, none, none,
        some "ultra", none, none, none⟩ = ["ultra quality"] ∧
    imageParts ⟨"a red bicycle", "on a cobblestone street",
        none, none, none, none, none, none, none, none, none, none, none,
        some "standard", none, none, none⟩
      = imagePartsBeforeQuality ⟨"a red bicycle", "on a cobblestone street",
          none, none, none, none, none, none, none, none, none, none, none,
          some "standard", none, none, none⟩
        ++ imageStylePart ⟨"a red bicycle", "on a cobblestone street",
          none, none, none, none, none, none, none, none, none, none, none,
          some "standard", none, none, none⟩ := by
  constructor
  · exact ((c4_image_quality_fragment _).1 "ultra" rfl (by decide) (by decide)).1
  · exact (c4_image_quality_fragment _).2 (Or.inr rfl)

/-- The record refuting C5: its `focal_length` is the whitespace-only string
`" "`, which Python's truthiness test accepts, so the camera sub-block joins
it with `camera_settings` before the top-level whitespace filter runs. -/
def whitespaceFocalRecord : ImagePrompt :=
  ⟨"a red bicycle", "on a cobblestone street", none, none, some " ", none,
    none, none, none, none, none, none, none, none, some "f/8", none, none⟩

/-- C5 fails on the code: a whitespace-only `focal_length` does produce a
fragment inside the joined camera sub-block, and the flattened output
`"a red bicycle, on a cobblestone street, , f/8"` contains an empty
component. -/
theorem c5_counterexample :
    reponse_to_string (.image whitespaceFocalRecord)
        = "a red bicycle, on a cobblestone street, , f/8" ∧
    "" ∈ splitCommaSpaceS (reponse_to_string (.image whitespaceFocalRecord)) := by
  constructor
  · decide
  · decide

/-- C5 (amended): a null field contributes no fragment, and the final join
drops every top-level part that is empty or whitespace-only — every
top-level component that reaches the join is non-empty.  (Whitespace-only
values of sub-block fields can still create empty components inside a joined
camera/lighting/composition block, as the counterexample shows.) -/
theorem c5_amended_no_null_or_blank_top_level :
    (∀ g : String → String, optFrag none g = []) ∧
    (∀ p : Prompt, ∀ c ∈ finalParts (partsOf p), 0 < c.length) := by
  constructor
  · intro g; rfl
  · intro p c hc
    unfold finalParts at hc
    obtain ⟨s, hs, rfl⟩ := List.mem_map.mp hc
    have hpred := (List.mem_filter.mp hs).2
    have : pyStripS s ≠ "" := by
      simpa using (Bool.and_elim_right hpred)
    exact length_pos_of_ne_empty this

/-- Witness for C5 (amended) at a concrete input. -/
theorem c5_amended_witness : 0 < ("a red bicycle" : String).length :=
  c5_amended_no_null_or_blank_top_level.2
    (.image ⟨"a red bicycle", "on a cobblestone street",
        none, none, none, none, none, none, none, none, none, none, none, none,
        none, none, none⟩)
    "a red bicycle" (by decide)

/-- C10: the declared schema default of `ImagePrompt.image_quality` is
`"high"`, not `"standard"`, so every image record whose `image_quality`
still holds the default contributes the fragment `"high quality"` to the
flattened output's component list. -/
theorem c10_default_quality_high :
    image_quality_default = "high" ∧
    ∀ p : ImagePrompt, p.image_quality = some image_quality_default →
      ("high quality" : String) ∈ finalParts (imageParts p) := by
  refine ⟨rfl, ?_⟩
  intro p hp
  have hq : imageQualityPart p = ["high quality"] := by
    simp [imageQualityPart, hp, image_quality_default]
  have hmem : ("high quality" : String) ∈ imageParts p := by
    unfold imageParts
    exact List.mem_append_left _ (List.mem_append_right _ (by simp [hq]))
  unfold finalParts
  exact List.mem_map.mpr ⟨"high quality",
    List.mem_filter.mpr ⟨hmem, by decide⟩, by decide⟩

/-- Witness for C10 at a concrete input. -/
theorem c10_default_quality_high_witness :
    ("high quality" : String) ∈ finalParts (imageParts
      ⟨"a red bicycle", "on a cobblestone street",
        none, none, none, none, none, none, none, none, none, none, none,
        some "high", none, none, none⟩) :=
  c10_default_quality_high.2 _ rfl

/-! ### Helper lemmas for the template-builder claims -/

theorem toList_append (s t : String) : (s ++ t).toList = s.toList ++ t.toList :=
  String.data_append s t

theorem asString_toList (s : String) : s.toList.asString = s := rfl

theorem toList_eq_nil_iff (s : String) : s.toList = [] ↔ s = "" := by
  constructor
  · intro h
    cases s with
    | mk d => cases h; rfl
  · intro h; subst h; rfl

theorem getLast?_dropWhile (p : Char → Bool) (l : List Char)
    (h : l.dropWhile p ≠ []) : (l.dropWhile p).getLast? = l.getLast? := by
  induction l with
  | nil => simp at h
  | cons c cs ih =>
    by_cases hc : p c
    · rw [List.dropWhile_cons_of_pos hc] at h ⊢
      rw [ih h]
      cases cs with
      | nil => simp at h
      | cons d ds => rw [List.getLast?_cons_cons]
    · rw [List.dropWhile_cons_of_neg hc]

/-- `findQuotedAux` inside a candidate match just collects a quote-free
segment. -/
theorem findQuotedAux_skip (seg : List Char) (hseg : ∀ c ∈ seg, ¬ c = '\'') :
    ∀ rest acc : List Char,
      findQuotedAux (some acc) (seg ++ rest)
        = findQuotedAux (some (seg.reverse ++ acc)) rest := by
  induction seg with
  | nil => intro rest acc; simp
  | cons c cs ih =>
    intro rest acc
    have hc : ¬ c = '\'' := hseg c (List.mem_cons_self c cs)
    rw [List.cons_append]
    show findQuotedAux (some acc) (c :: (cs ++ rest)) = _
    simp only [findQuotedAux, if_neg hc]
    rw [ih (fun x hx => hseg x (List.mem_cons_of_mem _ hx)) rest (c :: acc)]
    congr 2
    simp

/-- The character list of `'a', 'b'`. -/
theorem exItemsText_toList (a b : String) :
    (exItemsText a b).toList
      = '\'' :: (a.toList ++ ('\'' :: ',' :: ' ' :: '\'' :: (b.toList ++ ['\'']))) := by
  have h1 : ("'" : String).toList = ['\''] := rfl
  have h2 : ("', '" : String).toList = ['\'', ',', ' ', '\''] := rfl
  simp [exItemsText, toList_append, h1, h2]

/-- `re.findall(r"'([^']+)'", ...)` on `'a', 'b'` yields `[a, b]` when the
items are non-empty and quote-free. -/
theorem findQuoted_exItems (a b : String) (ha0 : a ≠ "") (hb0 : b ≠ "")
    (ha1 : ∀ c ∈ a.toList, ¬ c = '\'') (hb1 : ∀ c ∈ b.toList, ¬ c = '\'') :
    findQuoted (exItemsText a b).toList = [a, b] := by
  obtain ⟨a0, as, hA⟩ : ∃ x xs, a.toList = x :: xs := by
    cases h : a.toList with
    | nil => exact absurd ((toList_eq_nil_iff a).mp h) ha0
    | cons x xs => exact ⟨x, xs, rfl⟩
  obtain ⟨b0, bs, hB⟩ : ∃ x xs, b.toList = x :: xs := by
    cases h : b.toList with
    | nil => exact absurd ((toList_eq_nil_iff b).mp h) hb0
    | cons x xs => exact ⟨x, xs, rfl⟩
  rw [exItemsText_toList]
  show findQuotedAux none _ = _
  simp only [findQuotedAux, if_pos rfl]
  rw [findQuotedAux_skip a.toList ha1 _ []]
  simp only [findQuotedAux, if_pos rfl, List.append_nil]
  have hane : a.toList.reverse.isEmpty = false := by
    rw [hA]; simp
  rw [hane]
  simp only [Bool.false_eq_true, if_false, List.reverse_reverse, asString_toList]
  simp only [findQuotedAux, if_neg (by decide : ¬ ',' = '\''),
    if_neg (by decide : ¬ ' ' = '\''), if_pos rfl]
  rw [findQuotedAux_skip b.toList hb1 _ []]
  simp only [findQuotedAux, if_pos rfl, List.append_nil]
  have hbne : b.toList.reverse.isEmpty = false := by
    rw [hB]; simp
  rw [hbne]
  simp
  exact asString_toList b

/-- The header of the pattern matches at the start of an
`Examples: ...` clause. -/
theorem headerAt_examples (body : List Char) :
    headerAt (("Examples: ").toList ++ body) = some (' ' :: body) := rfl

/-- After the header, `\s*(.+?)(?:"|$)` captures everything up to the end of
a quote-free clause that does not end in a newline. -/
theorem lazyGroupSplit_no_quote (body : List Char)
    (h1 : body.dropWhile isPySpace ≠ [])
    (h2 : ∀ c ∈ body, ¬ c = '"')
    (h3 : body.getLast? ≠ some '\n') :
    lazyGroupSplit (' ' :: body) = some (body.dropWhile isPySpace, []) := by
  unfold lazyGroupSplit
  rw [List.dropWhile_cons_of_pos (by decide : isPySpace ' ' = true)]
  obtain ⟨c0, cs, hrest⟩ : ∃ x xs, body.dropWhile isPySpace = x :: xs := by
    cases h : body.dropWhile isPySpace with
    | nil => exact absurd h h1
    | cons x xs => exact ⟨x, xs, rfl⟩
  rw [hrest]
  have hsub : (c0 :: cs) ⊆ body := by
    rw [← hrest]
    exact (List.dropWhile_suffix isPySpace).subset
  have hcs : cs.dropWhile (fun c => c ≠ '"') = [] := by
    rw [List.dropWhile_eq_nil_iff]
    intro x hx
    simpa using h2 x (hsub (List.mem_cons_of_mem _ hx))
  show lazyGroupTail c0 cs = some (c0 :: cs, [])
  unfold lazyGroupTail
  rw [hcs]
  have e1 : (c0 :: cs).getLast? = body.getLast? := by
    rw [← hrest]
    exact getLast?_dropWhile _ _ h1
  show (match cs.getLast? with
        | some '\n' => some (c0 :: cs.dropLast, ['\n'])
        | _ => some (c0 :: cs, [])) = some (c0 :: cs, [])
  split
  · next heq =>
    exfalso
    cases cs with
    | nil => simp at heq
    | cons d ds =>
      rw [List.getLast?_cons_cons] at e1
      exact h3 (e1 ▸ heq)
  · rfl

/-- The whole pattern matches at the start of a clause `Examples: ` + body
(quote-free body with a non-space character, not ending in a newline),
capturing the body minus its leading whitespace and consuming the rest of
the string. -/
theorem fullMatchAt_examples (body : List Char)
    (h1 : body.dropWhile isPySpace ≠ [])
    (h2 : ∀ c ∈ body, ¬ c = '"')
    (h3 : body.getLast? ≠ some '\n') :
    fullMatchAt (("Examples: ").toList ++ body)
      = some (body.dropWhile isPySpace, []) := by
  unfold fullMatchAt
  rw [headerAt_examples]
  exact lazyGroupSplit_no_quote body h1 h2 h3

/-- When no position inside `pre` starts a match and `suffix` matches at its
start, the leftmost match of `pre ++ suffix` is exactly at the junction. -/
theorem findMatch_of_noMatchIn (pre suffix g r : List Char)
    (hpre : noMatchIn pre suffix = true)
    (hsuf : fullMatchAt suffix = some (g, r)) :
    findMatch (pre ++ suffix) = some (pre, g, r) := by
  induction pre with
  | nil =>
    rw [List.nil_append]
    cases suffix with
    | nil => simp [fullMatchAt, headerAt, matchLowerPat] at hsuf
    | cons c cs =>
      unfold findMatch
      rw [hsuf]
  | cons c rest ih =>
    have hpre' := hpre
    unfold noMatchIn at hpre'
    rw [Bool.and_eq_true] at hpre'
    have h1 : fullMatchAt ((c :: rest) ++ suffix) = none :=
      Option.isNone_iff_eq_none.mp hpre'.1
    rw [List.cons_append] at h1 ⊢
    unfold findMatch
    rw [h1, ih hpre'.2]

theorem removeMatchesAux_nil (n : Nat) : removeMatchesAux n [] = [] := by
  cases n with
  | zero => rfl
  | succ m => simp [removeMatchesAux, findMatch]

/-- `extract_examples_from_description` on a description `pre` + clause:
the clause is cut out (then the remainder stripped of trailing whitespace
and commas) and the quoted items are collected from the clause body. -/
theorem extract_clause (pre body : String)
    (hpre : noMatchIn pre.toList ("Examples: " ++ body).toList = true)
    (h1 : body.toList.dropWhile isPySpace ≠ [])
    (h2 : ∀ c ∈ body.toList, ¬ c = '"')
    (h3 : body.toList.getLast? ≠ some '\n') :
    extract_examples_from_description (pre ++ "Examples: " ++ body)
      = (cleanupPre pre, findQuoted (body.toList.dropWhile isPySpace)) := by
  have hsuf : fullMatchAt ("Examples: " ++ body).toList
      = some (body.toList.dropWhile isPySpace, []) := by
    rw [toList_append]
    exact fullMatchAt_examples _ h1 h2 h3
  have hassoc : pre ++ "Examples: " ++ body = pre ++ ("Examples: " ++ body) := by
    rw [String.append_assoc]
  have hfind : findMatch (pre ++ "Examples: " ++ body).toList
      = some (pre.toList, body.toList.dropWhile isPySpace, []) := by
    rw [hassoc, toList_append]
    exact findMatch_of_noMatchIn _ _ _ _ hpre hsuf
  have hrm : removeMatchesAux (pre ++ "Examples: " ++ body).toList.length
      (pre ++ "Examples: " ++ body).toList = pre.toList := by
    cases hL : (pre ++ "Examples: " ++ body).toList.length with
    | zero =>
      rw [List.length_eq_zero] at hL
      rw [hL] at hfind
      simp [findMatch] at hfind
    | succ n =>
      unfold removeMatchesAux
      rw [hfind]
      show pre.toList ++ removeMatchesAux n [] = pre.toList
      rw [removeMatchesAux_nil, List.append_nil]
  unfold extract_examples_from_description
  rw [hfind, hrm]
  rfl

/-- Unfolding `get_comprehensive_field_description` on a non-empty
description. -/
theorem get_comprehensive_some (d : String) (hd : d ≠ "")
    (choices constraints : List String) :
    get_comprehensive_field_description (some d) choices constraints
      = String.intercalate "\n"
          (((extract_examples_from_description d).1 ::
              (if (extract_examples_from_description d).2.isEmpty then []
               else "\n**Examples:**" ::
                 (extract_examples_from_description d).2.map (fun e => "  - " ++ e)))
            ++ choices
            ++ (if constraints.isEmpty then []
                else ["\n**Constraints:** " ++ String.intercalate ", " constraints])) := by
  simp only [get_comprehensive_field_description]
  rw [if_pos hd]

/-- C6: when a field's description consists of text `pre` (containing no
match of the examples pattern) followed by a clause `Examples: 'a', 'b'`
with non-empty, quote-free items, the assembled description drops the
literal clause — keeping only `pre` stripped of trailing whitespace and
commas — and instead lists `a` and `b` as separate `  - ` example lines, in
that order, before any choices and constraints blocks. -/
theorem c6_examples_clause (pre a b : String) (choices constraints : List String)
    (hpre : noMatchIn pre.toList ("Examples: " ++ exItemsText a b).toList = true)
    (ha0 : a ≠ "") (hb0 : b ≠ "")
    (ha1 : ∀ c ∈ a.toList, ¬ c = '\'' ∧ ¬ c = '"')
    (hb1 : ∀ c ∈ b.toList, ¬ c = '\'' ∧ ¬ c = '"') :
    extract_examples_from_description (pre ++ "Examples: " ++ exItemsText a b)
        = (cleanupPre pre, [a, b]) ∧
    get_comprehensive_field_description
        (some (pre ++ "Examples: " ++ exItemsText a b)) choices constraints
      = String.intercalate "\n"
          (cleanupPre pre :: "\n**Examples:**" :: ("  - " ++ a) :: ("  - " ++ b)
            :: (choices
                ++ if constraints.isEmpty then []
                   else ["\n**Constraints:** " ++ String.intercalate ", " constraints])) := by
  have hshape := exItemsText_toList a b
  have hdrop : (exItemsText a b).toList.dropWhile isPySpace
      = (exItemsText a b).toList := by
    rw [hshape]
    exact List.dropWhile_cons_of_neg (by decide)
  have h1 : (exItemsText a b).toList.dropWhile isPySpace ≠ [] := by
    rw [hdrop, hshape]; simp
  have h2 : ∀ c ∈ (exItemsText a b).toList, ¬ c = '"' := by
    intro c hc
    rw [hshape] at hc
    simp only [List.mem_cons, List.mem_append] at hc
    rcases hc with h | h
    · subst h; decide
    rcases h with h | h
    · exact (ha1 c h).2
    rcases h with h | h
    · subst h; decide
    rcases h with h | h
    · subst h; decide
    rcases h with h | h
    · subst h; decide
    rcases h with h | h
    · subst h; decide
    rcases h with h | h
    · exact (hb1 c h).2
    · simp at h; subst h; decide
  have h3 : (exItemsText a b).toList.getLast? ≠ some '\n' := by
    have : (exItemsText a b).toList
        = ('\'' :: (a.toList ++ ['\'', ',', ' ', '\''] ++ b.toList)) ++ ['\''] := by
      rw [hshape]; simp
    rw [this, List.getLast?_concat]
    decide
  have hextract := extract_clause pre (exItemsText a b) hpre h1 h2 h3
  rw [hdrop, findQuoted_exItems a b ha0 hb0
      (fun c hc => (ha1 c hc).1) (fun c hc => (hb1 c hc).1)] at hextract
  refine ⟨hextract, ?_⟩
  have hne : pre ++ "Examples: " ++ exItemsText a b ≠ "" := by
    intro h
    have := (toList_eq_nil_iff _).mpr h
    rw [String.append_assoc, toList_append] at this
    rcases List.append_eq_nil.mp this with ⟨-, h2'⟩
    rw [toList_append] at h2'
    rcases List.append_eq_nil.mp h2' with ⟨h3', -⟩
    exact absurd h3' (by decide)
  rw [get_comprehensive_some _ hne choices constraints, hextract]
  simp

/-- Witness for C6 at a concrete description. -/
theorem c6_examples_clause_witness :
    extract_examples_from_description "Color scheme. Examples: 'warm', 'cool'"
        = ("Color scheme.", ["warm", "cool"]) ∧
    get_comprehensive_field_description
        (some "Color scheme. Examples: 'warm', 'cool'") [] []
      = "Color scheme.\n\n**Examples:**\n  - warm\n  - cool" := by
  have h := c6_examples_clause "Color scheme. " "warm" "cool" [] []
    (by decide) (by decide) (by decide) (by decide) (by decide)
  have e1 : "Color scheme. " ++ "Examples: " ++ exItemsText "warm" "cool"
      = "Color scheme. Examples: 'warm', 'cool'" := by decide
  have e2 : cleanupPre "Color scheme. " = "Color scheme." := by decide
  rw [e1, e2] at h
  obtain ⟨hl, hr⟩ := h
  refine ⟨hl, ?_⟩
  rw [hr]
  decide

/-- The loop of the template builders groups the entries exactly as a
filter over the declared field order: required fields first, optional
fields second, each in declaration order. -/
theorem partitionEntries_go (fs : List FieldSpec) (acc : List String × List String) :
    fs.foldl
      (fun acc f =>
        if f.required then (acc.1 ++ [fieldEntry f], acc.2)
        else (acc.1, acc.2 ++ [fieldEntry f])) acc
    = (acc.1 ++ (fs.filter (fun f => f.required)).map fieldEntry,
       acc.2 ++ (fs.filter (fun f => !f.required)).map fieldEntry) := by
  induction fs generalizing acc with
  | nil => simp
  | cons f fs ih =>
    by_cases hb : f.required
    · simp [List.foldl_cons, hb, ih, List.filter_cons]
    · simp [List.foldl_cons, hb, ih, List.filter_cons]

theorem partitionEntries_eq (fs : List FieldSpec) :
    partitionEntries fs
      = ((fs.filter (fun f => f.required)).map fieldEntry,
         (fs.filter (fun f => !f.required)).map fieldEntry) := by
  unfold partitionEntries
  rw [partitionEntries_go]
  simp

/-- C7: each generated template consists of the preamble, then the required
fields section (all required fields, in schema declaration order), then the
optional-fields header, then all optional fields in declaration order, then
the fixed tail; and since both schemas declare required fields, the
required section is the header followed by those entries. -/
theorem c7_required_before_optional :
    (create_image_prompt_template
        = missionPreamble "image" "ImagePrompt"
          ++ requiredSectionText (requiredHeaderText "image") requiredFallbackText
              ((imageFields.filter (fun f => f.required)).map fieldEntry)
          ++ optionalHeaderText
          ++ String.intercalate "\n"
              ((imageFields.filter (fun f => !f.required)).map fieldEntry)
          ++ imageTemplateTail
      ∧ requiredSectionText (requiredHeaderText "image") requiredFallbackText
            ((imageFields.filter (fun f => f.required)).map fieldEntry)
          = requiredHeaderText "image"
            ++ String.intercalate "\n"
                ((imageFields.filter (fun f => f.required)).map fieldEntry)) ∧
    (create_video_prompt_template
        = missionPreamble "video" "VideoPrompt"
          ++ requiredSectionText (requiredHeaderText "video") requiredFallbackText
              ((videoFields.filter (fun f => f.required)).map fieldEntry)
          ++ optionalHeaderText
          ++ String.intercalate "\n"
              ((videoFields.filter (fun f => !f.required)).map fieldEntry)
          ++ videoTemplateTail
      ∧ requiredSectionText (requiredHeaderText "video") requiredFallbackText
            ((videoFields.filter (fun f => f.required)).map fieldEntry)
          = requiredHeaderText "video"
            ++ String.intercalate "\n"
                ((videoFields.filter (fun f => f.required)).map fieldEntry)) := by
  refine ⟨⟨?_, ?_⟩, ?_, ?_⟩
  · unfold create_image_prompt_template build_template
    rw [partitionEntries_eq]
  · rfl
  · unfold create_video_prompt_template build_template
    rw [partitionEntries_eq]
  · rfl

/-- C8: the template builders are pure functions of the schema field list
and the static texts — two builds from the same inputs are byte-identical,
and in particular repeated calls of either concrete builder agree. -/
theorem c8_build_template_deterministic :
    (∀ (preamble reqHeader reqFallback optHeader tail : String)
        (fs : List FieldSpec),
      build_template preamble reqHeader reqFallback optHeader tail fs
        = build_template preamble reqHeader reqFallback optHeader tail fs) ∧
    create_image_prompt_template = create_image_prompt_template ∧
    create_video_prompt_template = create_video_prompt_template :=
  ⟨fun _ _ _ _ _ _ => rfl, rfl, rfl⟩

/-- C9: when enum source introspection fails, `get_enum_choices` still
returns one generic line per choice, derived from the enum's name; and when
only a member's comment is missing, that member's line falls back to the
name-derived placeholder.  The build therefore never depends on
introspection succeeding. -/
theorem c9_enum_choices_fallback :
    (∀ e : EnumInfo,
      get_enum_choices false e
        = String.intercalate "\n"
            (e.members.map
              (fun m => "  • " ++ m.1 ++ ": Option for " ++ pyLower e.name))) ∧
    (∀ (name : String) (m : String × Option String), m.2 = none →
      enumChoiceLine name m
        = "  • " ++ m.1 ++ ": " ++ ("Option for " ++ pyLower (removeTypeSub name))) := by
  constructor
  · intro e
    simp [get_enum_choices]
  · intro name m hm
    obtain ⟨v, c⟩ := m
    cases hm
    rfl

/-- Witness for C9 at concrete inputs. -/
theorem c9_enum_choices_fallback_witness :
    get_enum_choices false ⟨"ShotType", [("close_up", some "x")]⟩
        = "  • close_up: Option for shottype" ∧
    enumChoiceLine "PhotographyType" ("portrait", none)
        = "  • portrait: Option for photography" := by
  constructor
  · have h := c9_enum_choices_fallback.1 ⟨"ShotType", [("close_up", some "x")]⟩
    rw [h]; decide
  · have h := c9_enum_choices_fallback.2 "PhotographyType" ("portrait", none) rfl
    rw [h]; decide

end VisualPrompting
